import Mathlib

/-!
Shallow embedding of the httpmcp-rust request dispatch engine:
JSON values (serde_json::Value), the JSON-RPC 2.0 envelope (src/jsonrpc.rs),
the error taxonomy and its mappings (src/error.rs), the protocol data model
(src/protocol.rs), the registry/builder (src/server.rs, src/metadata.rs),
the method handlers and the POST transport state machine (src/transport.rs,
src/handlers/lifecycle.rs).

Conventions of the embedding:
- `HashMap<String, V>` registries are modelled as association lists with
  HashMap insert semantics (replace the value at an existing key); claims
  about registries are stated order-independently since HashMap iteration
  order is unspecified.
- async handlers are modelled as pure functions returning `Except McpError`;
  the broadcast channel is modelled by a `subscriberCount` input and a list
  of published responses in the output.
- dynamic serde error messages are modelled by the fixed prefix the source
  formats them with; no claim inspects those message strings.
-/

/-- serde_json::Value. Numbers are modelled as integers (all claims use
integer-valued numbers); object fields are kept in insertion order. -/
inductive Json where
  | null : Json
  | bool (b : Bool) : Json
  | num (n : Int) : Json
  | str (s : String) : Json
  | arr (xs : List Json) : Json
  | obj (fields : List (String × Json)) : Json

/-- One hex digit, lower case, as serde_json emits in \u escapes. -/
def hexDigit (n : Nat) : Char :=
  if n < 10 then Char.ofNat (48 + n) else Char.ofNat (87 + n)

/-- Escape one character as serde_json string serialization does. -/
def escapeChar (c : Char) : String :=
  if c = Char.ofNat 34 then "\\\""
  else if c = Char.ofNat 92 then "\\\\"
  else if c = Char.ofNat 10 then "\\n"
  else if c = Char.ofNat 13 then "\\r"
  else if c = Char.ofNat 9 then "\\t"
  else if c = Char.ofNat 8 then "\\b"
  else if c = Char.ofNat 12 then "\\f"
  else if c.toNat < 32 then
    "\\u00" ++ String.mk [hexDigit (c.toNat / 16), hexDigit (c.toNat % 16)]
  else String.singleton c

/-- Escape a string as serde_json does. -/
def escapeString (s : String) : String :=
  String.join (s.data.map escapeChar)

mutual

/-- Compact serialization of a JSON value, mirroring
`serde_json::Value::to_string` (`result_value.to_string()` in
`handle_tools_call`). -/
def Json.render : Json → String
  | .null => "null"
  | .bool true => "true"
  | .bool false => "false"
  | .num n => toString n
  | .str s => "\"" ++ escapeString s ++ "\""
  | .arr xs => "[" ++ Json.renderArr xs ++ "]"
  | .obj fs => "\x7b" ++ Json.renderObj fs ++ "\x7d"

/-- Comma-separated rendering of array elements. -/
def Json.renderArr : List Json → String
  | [] => ""
  | [x] => x.render
  | x :: y :: rest => x.render ++ "," ++ Json.renderArr (y :: rest)

/-- Comma-separated rendering of object fields. -/
def Json.renderObj : List (String × Json) → String
  | [] => ""
  | [(k, v)] => "\"" ++ escapeString k ++ "\":" ++ v.render
  | (k, v) :: f :: rest =>
      "\"" ++ escapeString k ++ "\":" ++ v.render ++ "," ++ Json.renderObj (f :: rest)

end

/-- Field lookup in a JSON object field list (serde_json map access). -/
def jLookup (fields : List (String × Json)) (key : String) : Option Json :=
  match fields with
  | [] => none
  | (k, v) :: rest => if k = key then some v else jLookup rest key

/-- Field lookup on a JSON value, `none` on non-objects. -/
def jGet (j : Json) (key : String) : Option Json :=
  match j with
  | .obj fields => jLookup fields key
  | _ => none

/-- Optional field for serde `skip_serializing_if = "Option::is_none"`. -/
def optField (key : String) : Option Json → List (String × Json)
  | none => []
  | some v => [(key, v)]

/-- src/jsonrpc.rs `RequestId`: a request id is a string or an i64. -/
inductive RequestId where
  | string (s : String) : RequestId
  | number (n : Int) : RequestId
deriving DecidableEq

/-- src/jsonrpc.rs `JsonRpcError`. -/
structure JsonRpcError where
  code : Int
  message : String
  data : Option Json

/-- src/jsonrpc.rs `JsonRpcRequest`. -/
structure JsonRpcRequest where
  jsonrpc : String
  method : String
  params : Option Json
  id : Option RequestId

/-- src/jsonrpc.rs `JsonRpcResponse`. -/
structure JsonRpcResponse where
  jsonrpc : String
  result : Option Json
  error : Option JsonRpcError
  id : Option RequestId

-- src/jsonrpc.rs error_codes
namespace error_codes

def PARSE_ERROR : Int := -32700
def INVALID_REQUEST : Int := -32600
def METHOD_NOT_FOUND : Int := -32601
def INVALID_PARAMS : Int := -32602
def INTERNAL_ERROR : Int := -32603
def RESOURCE_NOT_FOUND : Int := -32002

end error_codes

/-- src/jsonrpc.rs `JsonRpcRequest::validate`. -/
def JsonRpcRequest.validate (r : JsonRpcRequest) : Except JsonRpcError Unit :=
  if r.jsonrpc ≠ "2.0" then
    .error ⟨error_codes.INVALID_REQUEST, "Invalid JSON-RPC version", none⟩
  else if r.method = "" then
    .error ⟨error_codes.INVALID_REQUEST, "Method cannot be empty", none⟩
  else
    .ok ()

/-- src/jsonrpc.rs `JsonRpcRequest::is_notification`. -/
def JsonRpcRequest.isNotification (r : JsonRpcRequest) : Bool :=
  r.id.isNone

/-- src/jsonrpc.rs `JsonRpcResponse::success`. -/
def JsonRpcResponse.success (result : Json) (id : Option RequestId) : JsonRpcResponse :=
  { jsonrpc := "2.0", result := some result, error := none, id := id }

/-- src/error.rs `McpError` (the error taxonomy). String payloads carry the
formatted message or identifier exactly as the Rust enum does. The Rust
variant `McpError::JsonRpcError` (the catch-all wrapped protocol error) is
named `JsonRpcErr` here to avoid shadowing the `JsonRpcError` structure. -/
inductive McpError where
  | ParseError (msg : String)
  | InvalidRequest (msg : String)
  | MethodNotFound (msg : String)
  | InvalidParams (msg : String)
  | InternalError (msg : String)
  | ResourceNotFound (uri : String)
  | ToolNotFound (name : String)
  | PromptNotFound (name : String)
  | AuthenticationRequired
  | AuthorizationFailed (msg : String)
  | SerializationError (msg : String)
  | IoError (msg : String)
  | JsonRpcErr (msg : String)
deriving DecidableEq

/-- src/error.rs `impl From<JsonRpcError> for McpError`: only the message
survives the conversion; the numeric code is discarded. -/
def McpError.fromJsonRpcError (e : JsonRpcError) : McpError :=
  McpError.JsonRpcErr e.message

/-- src/error.rs `McpError::to_jsonrpc_error`. -/
def McpError.toJsonRpcError : McpError → JsonRpcError
  | .ParseError msg => ⟨error_codes.PARSE_ERROR, msg, none⟩
  | .InvalidRequest msg => ⟨error_codes.INVALID_REQUEST, msg, none⟩
  | .MethodNotFound msg => ⟨error_codes.METHOD_NOT_FOUND, msg, none⟩
  | .InvalidParams msg => ⟨error_codes.INVALID_PARAMS, msg, none⟩
  | .InternalError msg => ⟨error_codes.INTERNAL_ERROR, msg, none⟩
  | .ResourceNotFound uri =>
      ⟨error_codes.RESOURCE_NOT_FOUND, "Resource not found: " ++ uri,
        some (Json.obj [("uri", Json.str uri)])⟩
  | .ToolNotFound name =>
      ⟨error_codes.METHOD_NOT_FOUND, "Tool not found: " ++ name,
        some (Json.obj [("tool", Json.str name)])⟩
  | .PromptNotFound name =>
      ⟨error_codes.METHOD_NOT_FOUND, "Prompt not found: " ++ name,
        some (Json.obj [("prompt", Json.str name)])⟩
  | .AuthenticationRequired =>
      ⟨error_codes.INVALID_REQUEST, "Authentication required", none⟩
  | .AuthorizationFailed msg =>
      ⟨error_codes.INVALID_REQUEST, "Authorization failed: " ++ msg, none⟩
  | .SerializationError msg =>
      ⟨error_codes.INTERNAL_ERROR, "Serialization error: " ++ msg, none⟩
  | .IoError msg => ⟨error_codes.INTERNAL_ERROR, "IO error: " ++ msg, none⟩
  | .JsonRpcErr msg => ⟨error_codes.INTERNAL_ERROR, msg, none⟩

/-- src/error.rs `ResponseError::status_code` for `McpError`. -/
def McpError.statusCode : McpError → Nat
  | .ParseError _ => 400
  | .InvalidRequest _ => 400
  | .MethodNotFound _ => 404
  | .InvalidParams _ => 400
  | .ResourceNotFound _ => 404
  | .ToolNotFound _ => 404
  | .PromptNotFound _ => 404
  | .AuthenticationRequired => 401
  | .AuthorizationFailed _ => 403
  | _ => 500

/-- Serialization of a `JsonRpcError` (serde: code, message, optional data). -/
def encJsonRpcError (e : JsonRpcError) : Json :=
  Json.obj ([("code", Json.num e.code), ("message", Json.str e.message)]
    ++ optField "data" e.data)

/-- src/error.rs `ResponseError::error_response` for `McpError`: the JSON body
is a JSON-RPC error envelope whose id is always null. -/
def McpError.errorResponse (e : McpError) : Json :=
  Json.obj [("jsonrpc", Json.str "2.0"),
            ("error", encJsonRpcError e.toJsonRpcError),
            ("id", Json.null)]

/-- src/protocol.rs `Implementation` (server identity). -/
structure Implementation where
  name : String
  version : String

/-- src/protocol.rs `Resource`. -/
structure Resource where
  uri : String
  name : String
  description : Option String
  mimeType : Option String

/-- src/protocol.rs `ResourceContents`. -/
structure ResourceContents where
  uri : String
  mimeType : Option String
  text : Option String
  blob : Option String

/-- src/protocol.rs `Tool`. -/
structure Tool where
  name : String
  description : Option String
  inputSchema : Json

/-- src/protocol.rs `ToolContent`. -/
inductive ToolContent where
  | text (text : String) : ToolContent
  | image (data : String) (mimeType : String) : ToolContent
  | resource (resource : ResourceContents) : ToolContent

/-- src/protocol.rs `ToolsCallResult`. -/
structure ToolsCallResult where
  content : List ToolContent
  isError : Option Bool

/-- src/protocol.rs `ToolsListResult`. -/
structure ToolsListResult where
  tools : List Tool
  nextCursor : Option String

/-- src/protocol.rs `ResourcesListResult`. -/
structure ResourcesListResult where
  resources : List Resource
  nextCursor : Option String

/-- src/protocol.rs `ResourcesReadResult`. -/
structure ResourcesReadResult where
  contents : List ResourceContents

/-- src/protocol.rs `ResourcesListParams`. -/
structure ResourcesListParams where
  cursor : Option String

/-- src/protocol.rs `ResourcesReadParams`. -/
structure ResourcesReadParams where
  uri : String

/-- src/protocol.rs `ToolsCallParams`. The argument map is an insertion
ordered association list modelling `HashMap<String, Value>`. -/
structure ToolsCallParams where
  name : String
  arguments : Option (List (String × Json))

/-- src/protocol.rs `PromptArgument`. -/
structure PromptArgument where
  name : String
  description : Option String
  required : Option Bool

/-- src/protocol.rs `Prompt`. -/
structure Prompt where
  name : String
  description : Option String
  arguments : Option (List PromptArgument)

/-- src/protocol.rs `PromptContent`. -/
inductive PromptContent where
  | text (text : String) : PromptContent
  | image (data : String) (mimeType : String) : PromptContent

/-- src/protocol.rs `PromptMessage`. -/
structure PromptMessage where
  role : String
  content : PromptContent

/-- src/protocol.rs `PromptsListResult`. -/
structure PromptsListResult where
  prompts : List Prompt
  nextCursor : Option String

/-- src/protocol.rs `PromptsGetParams`. -/
structure PromptsGetParams where
  name : String
  arguments : Option (List (String × String))

/-- src/protocol.rs `PromptsGetResult`. -/
structure PromptsGetResult where
  description : Option String
  messages : List PromptMessage

/-- src/protocol.rs `LogLevel`. -/
inductive LogLevel where
  | debug | info | warning | error

/-- src/protocol.rs capability structs: `LoggingCapability` has no fields. -/
inductive LoggingCapability where
  | mk : LoggingCapability

/-- src/protocol.rs `PromptsCapability`. -/
structure PromptsCapability where
  listChanged : Option Bool

/-- src/protocol.rs `ResourcesCapability`. -/
structure ResourcesCapability where
  subscribe : Option Bool
  listChanged : Option Bool

/-- src/protocol.rs `ToolsCapability`. -/
structure ToolsCapability where
  listChanged : Option Bool

/-- src/protocol.rs `ServerCapabilities`. -/
structure ServerCapabilities where
  logging : Option LoggingCapability
  prompts : Option PromptsCapability
  resources : Option ResourcesCapability
  tools : Option ToolsCapability

/-- src/protocol.rs `InitializeResult`. -/
structure InitializeResult where
  protocolVersion : String
  capabilities : ServerCapabilities
  serverInfo : Implementation

/-- Client-declared initialization parameters, from src/protocol.rs
`InitializeParams` (the `capabilities` payload is parsed but unused by
`handle_initialize`, so only its presence is modelled by the parser). -/
structure InitializeParams where
  protocolVersion : String
  clientInfo : Implementation

/-- Serialization of `Implementation`. -/
def encImplementation (i : Implementation) : Json :=
  Json.obj [("name", Json.str i.name), ("version", Json.str i.version)]

/-- Serialization of `Resource` (serde field order, optionals skipped). -/
def encResource (r : Resource) : Json :=
  Json.obj ([("uri", Json.str r.uri), ("name", Json.str r.name)]
    ++ optField "description" (r.description.map Json.str)
    ++ optField "mimeType" (r.mimeType.map Json.str))

/-- Serialization of `ResourceContents`. -/
def encResourceContents (c : ResourceContents) : Json :=
  Json.obj ([("uri", Json.str c.uri)]
    ++ optField "mimeType" (c.mimeType.map Json.str)
    ++ optField "text" (c.text.map Json.str)
    ++ optField "blob" (c.blob.map Json.str))

/-- Serialization of `Tool`. -/
def encTool (t : Tool) : Json :=
  Json.obj ([("name", Json.str t.name)]
    ++ optField "description" (t.description.map Json.str)
    ++ [("inputSchema", t.inputSchema)])

/-- Serialization of `ToolContent` (internally tagged with "type"). -/
def encToolContent : ToolContent → Json
  | .text t => Json.obj [("type", Json.str "text"), ("text", Json.str t)]
  | .image d m =>
      Json.obj [("type", Json.str "image"), ("data", Json.str d),
                ("mimeType", Json.str m)]
  | .resource rc =>
      Json.obj [("type", Json.str "resource"), ("resource", encResourceContents rc)]

/-- Serialization of `ToolsCallResult`. -/
def encToolsCallResult (r : ToolsCallResult) : Json :=
  Json.obj ([("content", Json.arr (r.content.map encToolContent))]
    ++ optField "isError" (r.isError.map Json.bool))

/-- Serialization of `ToolsListResult`. -/
def encToolsListResult (r : ToolsListResult) : Json :=
  Json.obj ([("tools", Json.arr (r.tools.map encTool))]
    ++ optField "nextCursor" (r.nextCursor.map Json.str))

/-- Serialization of `ResourcesListResult`. -/
def encResourcesListResult (r : ResourcesListResult) : Json :=
  Json.obj ([("resources", Json.arr (r.resources.map encResource))]
    ++ optField "nextCursor" (r.nextCursor.map Json.str))

/-- Serialization of `ResourcesReadResult`. -/
def encResourcesReadResult (r : ResourcesReadResult) : Json :=
  Json.obj [("contents", Json.arr (r.contents.map encResourceContents))]

/-- Serialization of `PromptArgument`. -/
def encPromptArgument (a : PromptArgument) : Json :=
  Json.obj ([("name", Json.str a.name)]
    ++ optField "description" (a.description.map Json.str)
    ++ optField "required" (a.required.map Json.bool))

/-- Serialization of `Prompt`. -/
def encPrompt (p : Prompt) : Json :=
  Json.obj ([("name", Json.str p.name)]
    ++ optField "description" (p.description.map Json.str)
    ++ optField "arguments"
        (p.arguments.map (fun args => Json.arr (args.map encPromptArgument))))

/-- Serialization of `PromptContent`. -/
def encPromptContent : PromptContent → Json
  | .text t => Json.obj [("type", Json.str "text"), ("text", Json.str t)]
  | .image d m =>
      Json.obj [("type", Json.str "image"), ("data", Json.str d),
                ("mimeType", Json.str m)]

/-- Serialization of `PromptMessage`. -/
def encPromptMessage (m : PromptMessage) : Json :=
  Json.obj [("role", Json.str m.role), ("content", encPromptContent m.content)]

/-- Serialization of `PromptsListResult`. -/
def encPromptsListResult (r : PromptsListResult) : Json :=
  Json.obj ([("prompts", Json.arr (r.prompts.map encPrompt))]
    ++ optField "nextCursor" (r.nextCursor.map Json.str))

/-- Serialization of `PromptsGetResult`. -/
def encPromptsGetResult (r : PromptsGetResult) : Json :=
  Json.obj (optField "description" (r.description.map Json.str)
    ++ [("messages", Json.arr (r.messages.map encPromptMessage))])

/-- Serialization of the capability structs ({} for logging). -/
def encLoggingCapability (_c : LoggingCapability) : Json := Json.obj []

/-- Serialization of `PromptsCapability`. -/
def encPromptsCapability (c : PromptsCapability) : Json :=
  Json.obj (optField "listChanged" (c.listChanged.map Json.bool))

/-- Serialization of `ResourcesCapability`. -/
def encResourcesCapability (c : ResourcesCapability) : Json :=
  Json.obj (optField "subscribe" (c.subscribe.map Json.bool)
    ++ optField "listChanged" (c.listChanged.map Json.bool))

/-- Serialization of `ToolsCapability`. -/
def encToolsCapability (c : ToolsCapability) : Json :=
  Json.obj (optField "listChanged" (c.listChanged.map Json.bool))

/-- Serialization of `ServerCapabilities`. -/
def encServerCapabilities (c : ServerCapabilities) : Json :=
  Json.obj (optField "logging" (c.logging.map encLoggingCapability)
    ++ optField "prompts" (c.prompts.map encPromptsCapability)
    ++ optField "resources" (c.resources.map encResourcesCapability)
    ++ optField "tools" (c.tools.map encToolsCapability))

/-- Serialization of `InitializeResult`. -/
def encInitializeResult (r : InitializeResult) : Json :=
  Json.obj [("protocolVersion", Json.str r.protocolVersion),
            ("capabilities", encServerCapabilities r.capabilities),
            ("serverInfo", encImplementation r.serverInfo)]

/-- src/context.rs `RequestContext`: per-call ambient data (headers elided). -/
structure RequestContext where
  requestId : String
  method : String
  path : String

/-- src/handler_types.rs `ToolHandler` (async elided, context kept). -/
def ToolHandler : Type :=
  List (String × Json) → RequestContext → Except McpError Json

/-- src/handler_types.rs `ResourceListHandler`. -/
def ResourceListHandler : Type :=
  Option String → RequestContext → Except McpError (List Resource × Option String)

/-- src/handler_types.rs `ResourceReadHandler`. -/
def ResourceReadHandler : Type :=
  String → RequestContext → Except McpError (List ResourceContents)

/-- src/handler_types.rs `PromptHandler`. -/
def PromptHandler : Type :=
  String → Option (List (String × String)) → RequestContext →
    Except McpError (Option String × List PromptMessage)

/-- src/handler_types.rs `RegisteredTool`. -/
structure RegisteredTool where
  meta : Tool
  handler : ToolHandler

/-- src/handler_types.rs `RegisteredResource`. -/
structure RegisteredResource where
  meta : Resource
  listHandler : ResourceListHandler
  readHandler : ResourceReadHandler

/-- src/handler_types.rs `RegisteredPrompt`. -/
structure RegisteredPrompt where
  meta : Prompt
  handler : PromptHandler

/-- `HashMap::get` on a registry modelled as an association list. -/
def lookupReg (key : String) : List (String × α) → Option α
  | [] => none
  | (k, v) :: rest => if k = key then some v else lookupReg key rest

/-- `HashMap::insert` on a registry modelled as an association list: the
value at an existing key is replaced, a new key is appended. -/
def insertReg (key : String) (v : α) : List (String × α) → List (String × α)
  | [] => [(key, v)]
  | (k, w) :: rest =>
      if k = key then (key, v) :: rest else (k, w) :: insertReg key v rest

/-- Keys of a registry. -/
def regKeys (reg : List (String × α)) : List String :=
  reg.map Prod.fst

/-- src/server.rs `HttpMcpServer` (transport glue, CORS, OAuth and custom
endpoints elided; the broadcast channel is modelled at the `handlePost`
boundary). -/
structure Server where
  serverInfo : Implementation
  capabilities : ServerCapabilities
  tools : List (String × RegisteredTool)
  resources : List (String × RegisteredResource)
  prompts : List (String × RegisteredPrompt)

/-- src/metadata.rs `ParamMeta`. -/
structure ParamMeta where
  name : String
  paramType : String
  description : String

/-- src/metadata.rs `ToolMeta`. -/
structure ToolMeta where
  description : Option String
  params : List ParamMeta
  required : List String

/-- src/metadata.rs `ToolMeta::to_tool`: builds the input schema and stamps
the registered name onto the `Tool` metadata. (serde_json maps sort keys;
the claims never inspect schema serialization order, so fields are kept in
construction order here.) -/
def ToolMeta.toTool (m : ToolMeta) (name : String) : Tool :=
  let properties :=
    Json.obj (m.params.map fun p =>
      (p.name, Json.obj [("type", Json.str p.paramType),
                         ("description", Json.str p.description)]))
  let schema :=
    if m.required.isEmpty then
      Json.obj [("type", Json.str "object"), ("properties", properties)]
    else
      Json.obj [("type", Json.str "object"), ("properties", properties),
                ("required", Json.arr (m.required.map Json.str))]
  ⟨name, m.description, schema⟩

/-- src/metadata.rs `ResourceMeta`. -/
structure ResourceMeta where
  name : String
  description : Option String
  mimeType : Option String

/-- src/metadata.rs `ResourceMeta::to_resource`. -/
def ResourceMeta.toResource (m : ResourceMeta) (uri : String) : Resource :=
  ⟨uri, m.name, m.description, m.mimeType⟩

/-- src/metadata.rs `PromptArgumentMeta`. -/
structure PromptArgumentMeta where
  name : String
  description : Option String
  required : Bool

/-- src/metadata.rs `PromptMeta`. -/
structure PromptMeta where
  description : Option String
  arguments : List PromptArgumentMeta

/-- src/metadata.rs `PromptMeta::to_prompt`. -/
def PromptMeta.toPrompt (m : PromptMeta) (name : String) : Prompt :=
  let args :=
    if m.arguments.isEmpty then none
    else some (m.arguments.map fun a => PromptArgument.mk a.name a.description (some a.required))
  ⟨name, m.description, args⟩

/-- src/server.rs `HttpMcpServerBuilder` (endpoints, OAuth, CORS elided:
they do not affect the dispatch engine claims). -/
structure Builder where
  name : String
  version : String
  tools : List (String × RegisteredTool)
  resources : List (String × RegisteredResource)
  prompts : List (String × RegisteredPrompt)

/-- src/server.rs `HttpMcpServerBuilder::new`. -/
def Builder.new : Builder :=
  ⟨"httpmcp-server", "1.0.0", [], [], []⟩

/-- src/server.rs `HttpMcpServerBuilder::tool`: registers under `name`, with
the metadata stamped by `to_tool(name)`. -/
def Builder.tool (b : Builder) (name : String) (meta : ToolMeta)
    (handler : ToolHandler) : Builder :=
  { b with tools := insertReg name ⟨meta.toTool name, handler⟩ b.tools }

/-- src/server.rs `HttpMcpServerBuilder::resource`. -/
def Builder.resource (b : Builder) (uri : String) (meta : ResourceMeta)
    (listHandler : ResourceListHandler) (readHandler : ResourceReadHandler) : Builder :=
  { b with resources :=
      insertReg uri ⟨meta.toResource uri, listHandler, readHandler⟩ b.resources }

/-- src/server.rs `HttpMcpServerBuilder::prompt`. -/
def Builder.prompt (b : Builder) (name : String) (meta : PromptMeta)
    (handler : PromptHandler) : Builder :=
  { b with prompts := insertReg name ⟨meta.toPrompt name, handler⟩ b.prompts }

/-- src/server.rs `HttpMcpServerBuilder::build`: freezes the capability set
from the registry contents (the Rust function returns `Ok` unconditionally,
so the `Result` wrapper is elided). -/
def Builder.build (b : Builder) : Server :=
  { serverInfo := ⟨b.name, b.version⟩
    capabilities :=
      { logging := some LoggingCapability.mk
        prompts := if b.prompts.isEmpty then none else some ⟨none⟩
        resources := if b.resources.isEmpty then none else some ⟨none, none⟩
        tools := if b.tools.isEmpty then none else some ⟨none⟩ }
    tools := b.tools
    resources := b.resources
    prompts := b.prompts }

/-- Rust `str::starts_with`: byte-prefix test, modelled on the character
sequence (equivalent for whole-character prefixes such as "2024-"). -/
def strStartsWith (s pre : String) : Bool :=
  pre.data.isPrefixOf s.data

/-- serde parse of `InitializeParams` (src/handlers/lifecycle.rs line 12):
requires `protocolVersion` (string), `capabilities` (object) and
`clientInfo` (object with string `name`/`version`); any failure becomes
`InvalidParams` with the fixed "Invalid initialize params" prefix (the
dynamic serde message is elided). -/
def parseInitializeParams (j : Json) : Except McpError InitializeParams :=
  match j with
  | .obj fields =>
      match jLookup fields "protocolVersion", jLookup fields "capabilities",
            jLookup fields "clientInfo" with
      | some (.str v), some (.obj _), some (.obj ci) =>
          match jLookup ci "name", jLookup ci "version" with
          | some (.str n), some (.str ver) => .ok ⟨v, ⟨n, ver⟩⟩
          | _, _ => .error (McpError.InvalidParams "Invalid initialize params")
      | _, _, _ => .error (McpError.InvalidParams "Invalid initialize params")
  | _ => .error (McpError.InvalidParams "Invalid initialize params")

/-- src/handlers/lifecycle.rs `handle_initialize`: parses the params,
rejects protocol versions outside the "2024-"/"2025-" prefixes with
`InvalidRequest`, else succeeds with the frozen capability set and server
identity. -/
def handleInitializeReq (req : JsonRpcRequest) (serverInfo : Implementation)
    (capabilities : ServerCapabilities) : Except McpError JsonRpcResponse :=
  match parseInitializeParams (req.params.getD Json.null) with
  | .error e => .error e
  | .ok params =>
      if !(strStartsWith params.protocolVersion "2024-"
            || strStartsWith params.protocolVersion "2025-") then
        .error (McpError.InvalidRequest
          ("Unsupported protocol version: " ++ params.protocolVersion))
      else
        .ok (JsonRpcResponse.success
          (encInitializeResult ⟨params.protocolVersion, capabilities, serverInfo⟩)
          req.id)

/-- src/handlers/lifecycle.rs `handle_ping`: always succeeds with `{}`. -/
def handlePing (req : JsonRpcRequest) : Except McpError JsonRpcResponse :=
  .ok (JsonRpcResponse.success (Json.obj []) req.id)

/-- src/transport.rs `handle_notifications_initialized`. -/
def handleNotificationsInitialized (req : JsonRpcRequest) :
    Except McpError JsonRpcResponse :=
  .ok (JsonRpcResponse.success (Json.obj []) req.id)

/-- serde parse of `LogLevel` (rename_all = "lowercase"). -/
def parseLogLevel (j : Json) : Option LogLevel :=
  match j with
  | .str "debug" => some LogLevel.debug
  | .str "info" => some LogLevel.info
  | .str "warning" => some LogLevel.warning
  | .str "error" => some LogLevel.error
  | _ => none

/-- src/transport.rs `handle_logging_set_level`: params must carry a valid
`level`; the level itself is parsed but not applied. -/
def handleLoggingSetLevel (req : JsonRpcRequest) : Except McpError JsonRpcResponse :=
  match req.params.getD Json.null with
  | .obj fields =>
      match jLookup fields "level" with
      | some levelJson =>
          match parseLogLevel levelJson with
          | some _ => .ok (JsonRpcResponse.success (Json.obj []) req.id)
          | none => .error (McpError.InvalidParams "Invalid params")
      | none => .error (McpError.InvalidParams "Invalid params")
  | _ => .error (McpError.InvalidParams "Invalid params")

/-- serde parse of `ResourcesListParams` with the
`.unwrap_or(ResourcesListParams { cursor: None })` fallback of
`handle_resources_list`: any parse failure yields a `none` cursor. -/
def parseResourcesListParams (j : Json) : ResourcesListParams :=
  match j with
  | .obj fields =>
      match jLookup fields "cursor" with
      | some (.str c) => ⟨some c⟩
      | _ => ⟨none⟩
  | _ => ⟨none⟩

/-- serde parse of `ResourcesReadParams`: requires a string `uri`. -/
def parseResourcesReadParams (j : Json) : Except McpError ResourcesReadParams :=
  match j with
  | .obj fields =>
      match jLookup fields "uri" with
      | some (.str u) => .ok ⟨u⟩
      | _ => .error (McpError.InvalidParams "Invalid params")
  | _ => .error (McpError.InvalidParams "Invalid params")

/-- The sequential `for registered in server.resources.values()` loop of
`handle_resources_list`: invoke every provider's list handler with the same
cursor, concatenating results; the first handler error aborts the loop. -/
def listFanout (providers : List (String × RegisteredResource))
    (cursor : Option String) (ctx : RequestContext) :
    Except McpError (List Resource) :=
  match providers with
  | [] => .ok []
  | (_, r) :: rest =>
      match r.listHandler cursor ctx with
      | .error e => .error e
      | .ok (resources, _) =>
          match listFanout rest cursor ctx with
          | .error e => .error e
          | .ok acc => .ok (resources ++ acc)

/-- The sequential read loop of `handle_resources_read`: invoke every
provider's read handler with the requested URI, concatenating results; the
first handler error aborts the loop. -/
def readFanout (providers : List (String × RegisteredResource))
    (uri : String) (ctx : RequestContext) :
    Except McpError (List ResourceContents) :=
  match providers with
  | [] => .ok []
  | (_, r) :: rest =>
      match r.readHandler uri ctx with
      | .error e => .error e
      | .ok contents =>
          match readFanout rest uri ctx with
          | .error e => .error e
          | .ok acc => .ok (contents ++ acc)

/-- src/transport.rs `handle_resources_list`. -/
def handleResourcesList (req : JsonRpcRequest) (ctx : RequestContext)
    (server : Server) : Except McpError JsonRpcResponse :=
  match listFanout server.resources
      (parseResourcesListParams (req.params.getD Json.null)).cursor ctx with
  | .error e => .error e
  | .ok allResources =>
      .ok (JsonRpcResponse.success
        (encResourcesListResult ⟨allResources, none⟩) req.id)

/-- src/transport.rs `handle_resources_read`: fan out the read across all
providers, concatenate, and fail with `ResourceNotFound(uri)` when the
aggregate is empty. -/
def handleResourcesRead (req : JsonRpcRequest) (ctx : RequestContext)
    (server : Server) : Except McpError JsonRpcResponse :=
  match parseResourcesReadParams (req.params.getD Json.null) with
  | .error e => .error e
  | .ok params =>
      match readFanout server.resources params.uri ctx with
      | .error e => .error e
      | .ok contents =>
          if contents.isEmpty then
            .error (McpError.ResourceNotFound params.uri)
          else
            .ok (JsonRpcResponse.success
              (encResourcesReadResult ⟨contents⟩) req.id)

/-- src/transport.rs `handle_resources_templates`: fixed empty list. -/
def handleResourcesTemplates (req : JsonRpcRequest) :
    Except McpError JsonRpcResponse :=
  .ok (JsonRpcResponse.success
    (Json.obj [("resourceTemplates", Json.arr [])]) req.id)

/-- src/transport.rs `handle_resources_subscribe`: fixed null result. -/
def handleResourcesSubscribe (req : JsonRpcRequest) :
    Except McpError JsonRpcResponse :=
  .ok (JsonRpcResponse.success Json.null req.id)

/-- src/transport.rs `handle_tools_list`: returns the metadata of every
registered tool. -/
def handleToolsList (req : JsonRpcRequest) (server : Server) :
    Except McpError JsonRpcResponse :=
  let tools := server.tools.map (fun p => p.2.meta)
  .ok (JsonRpcResponse.success (encToolsListResult ⟨tools, none⟩) req.id)

/-- serde parse of `ToolsCallParams`: requires a string `name`; `arguments`
is an optional object (absent or null gives `none`). -/
def parseToolsCallParams (j : Json) : Except McpError ToolsCallParams :=
  match j with
  | .obj fields =>
      match jLookup fields "name" with
      | some (.str n) =>
          match jLookup fields "arguments" with
          | none => .ok ⟨n, none⟩
          | some .null => .ok ⟨n, none⟩
          | some (.obj args) => .ok ⟨n, some args⟩
          | some _ => .error (McpError.InvalidParams "Invalid params")
      | _ => .error (McpError.InvalidParams "Invalid params")
  | _ => .error (McpError.InvalidParams "Invalid params")

/-- src/transport.rs `handle_tools_call`: look up the tool by name
(missing gives `ToolNotFound`), invoke the handler with the supplied
arguments (or the empty map), and wrap the returned value as one text
content item holding its stringification, with `is_error` unset. -/
def handleToolsCall (req : JsonRpcRequest) (ctx : RequestContext)
    (server : Server) : Except McpError JsonRpcResponse :=
  match parseToolsCallParams (req.params.getD Json.null) with
  | .error e => .error e
  | .ok params =>
      match lookupReg params.name server.tools with
      | none => .error (McpError.ToolNotFound params.name)
      | some registered =>
          match registered.handler (params.arguments.getD []) ctx with
          | .error e => .error e
          | .ok resultValue =>
              .ok (JsonRpcResponse.success
                (encToolsCallResult ⟨[ToolContent.text resultValue.render], none⟩)
                req.id)

/-- src/transport.rs `handle_prompts_list`. -/
def handlePromptsList (req : JsonRpcRequest) (server : Server) :
    Except McpError JsonRpcResponse :=
  let prompts := server.prompts.map (fun p => p.2.meta)
  .ok (JsonRpcResponse.success (encPromptsListResult ⟨prompts, none⟩) req.id)

/-- All-string-valued object fields, for `HashMap<String, String>`. -/
def asStringMap : List (String × Json) → Option (List (String × String))
  | [] => some []
  | (k, Json.str v) :: rest => (asStringMap rest).map (fun m => (k, v) :: m)
  | _ => none

/-- serde parse of `PromptsGetParams`. -/
def parsePromptsGetParams (j : Json) : Except McpError PromptsGetParams :=
  match j with
  | .obj fields =>
      match jLookup fields "name" with
      | some (.str n) =>
          match jLookup fields "arguments" with
          | none => .ok ⟨n, none⟩
          | some .null => .ok ⟨n, none⟩
          | some (.obj args) =>
              match asStringMap args with
              | some m => .ok ⟨n, some m⟩
              | none => .error (McpError.InvalidParams "Invalid params")
          | some _ => .error (McpError.InvalidParams "Invalid params")
      | _ => .error (McpError.InvalidParams "Invalid params")
  | _ => .error (McpError.InvalidParams "Invalid params")

/-- src/transport.rs `handle_prompts_get`. -/
def handlePromptsGet (req : JsonRpcRequest) (ctx : RequestContext)
    (server : Server) : Except McpError JsonRpcResponse :=
  match parsePromptsGetParams (req.params.getD Json.null) with
  | .error e => .error e
  | .ok params =>
      match lookupReg params.name server.prompts with
      | none => .error (McpError.PromptNotFound params.name)
      | some registered =>
          match registered.handler params.name params.arguments ctx with
          | .error e => .error e
          | .ok (description, messages) =>
              .ok (JsonRpcResponse.success
                (encPromptsGetResult ⟨description, messages⟩) req.id)

/-- src/transport.rs `route_request`: route a validated message by method
name; unrecognized methods fail with `MethodNotFound` carrying the name. -/
def routeRequest (req : JsonRpcRequest) (ctx : RequestContext)
    (server : Server) : Except McpError JsonRpcResponse :=
  match req.method with
  | "initialize" => handleInitializeReq req server.serverInfo server.capabilities
  | "ping" => handlePing req
  | "notifications/initialized" => handleNotificationsInitialized req
  | "resources/list" => handleResourcesList req ctx server
  | "resources/read" => handleResourcesRead req ctx server
  | "resources/templates/list" => handleResourcesTemplates req
  | "resources/subscribe" => handleResourcesSubscribe req
  | "tools/list" => handleToolsList req server
  | "tools/call" => handleToolsCall req ctx server
  | "prompts/list" => handlePromptsList req server
  | "prompts/get" => handlePromptsGet req ctx server
  | "logging/setLevel" => handleLoggingSetLevel req
  | _ => .error (McpError.MethodNotFound req.method)

/-- Observable transport effect of one POST /mcp call. -/
inductive HttpOut where
  | errorBody (body : Json) (status : Nat) : HttpOut
  | noContent : HttpOut
  | accepted : HttpOut
  | okJson (response : JsonRpcResponse) : HttpOut

/-- src/transport.rs `handle_post` (OAuth not configured, CORS headers
elided): validate, route, then deliver. A propagated `McpError` is
serialized by `error_response` (JSON-RPC error body, id null) before the
notification and SSE checks are reached. The broadcast channel is modelled
by `subscriberCount` (its `receiver_count()` at publish time) and the list
of published responses returned alongside the HTTP effect. -/
def handlePost (server : Server) (ctx : RequestContext) (acceptSse : Bool)
    (subscriberCount : Nat) (req : JsonRpcRequest) :
    HttpOut × List JsonRpcResponse :=
  match req.validate with
  | .error e =>
      let mcpErr := McpError.fromJsonRpcError e
      (HttpOut.errorBody mcpErr.errorResponse mcpErr.statusCode, [])
  | .ok _ =>
      match routeRequest req ctx server with
      | .error e => (HttpOut.errorBody e.errorResponse e.statusCode, [])
      | .ok response =>
          if req.isNotification then
            (HttpOut.noContent, [])
          else if acceptSse then
            if 0 < subscriberCount then
              (HttpOut.accepted, [response])
            else
              (HttpOut.okJson response, [])
          else
            (HttpOut.okJson response, [])

/-- A sequence of `HttpMcpServerBuilder::tool` registrations, applied in
order (models chained builder calls). -/
def registerTools (b : Builder) :
    List (String × ToolMeta × ToolHandler) → Builder
  | [] => b
  | (n, m, h) :: rest => registerTools (b.tool n m h) rest

/-- Fixed request context used by the concrete witnesses. -/
def ctx0 : RequestContext := ⟨"req-1", "POST", "/mcp"⟩

/-- A server built with no registrations. -/
def server0 : Server := Builder.new.build

/-- A ping request carrying id 1. -/
def pingReq1 : JsonRpcRequest := ⟨"2.0", "ping", none, some (RequestId.number 1)⟩

/-- The response `handle_ping` computes for `pingReq1`. -/
def pingResp1 : JsonRpcResponse :=
  JsonRpcResponse.success (Json.obj []) (some (RequestId.number 1))

/-- Empty tool metadata (`ToolMeta::new()`). -/
def toolMeta0 : ToolMeta := ⟨none, [], []⟩

/-- A tool handler that ignores its arguments and returns `{"result":5}`. -/
def addHandler : ToolHandler :=
  fun _ _ => Except.ok (Json.obj [("result", Json.num 5)])

/-- A builder with the single tool "add" registered. -/
def toolBuilder : Builder := Builder.new.tool "add" toolMeta0 addHandler

/-- Resource list/read handlers used by the concrete witnesses: provider
recognizing no URI (empty results). -/
def emptyListHandler : ResourceListHandler := fun _ _ => Except.ok ([], none)

/-- Read handler returning no contents (does not recognize any URI). -/
def emptyReadHandler : ResourceReadHandler := fun _ _ => Except.ok []

/-- A concrete resource content record for URI "res://b". -/
def contentB : ResourceContents := ⟨"res://b", some "text/plain", some "B", none⟩

/-- Read handler recognizing exactly "res://b". -/
def readHandlerB : ResourceReadHandler := fun uri _ =>
  if uri = "res://b" then Except.ok [contentB] else Except.ok []

/-- Read handler that always fails with an internal error. -/
def failingReadHandler : ResourceReadHandler :=
  fun _ _ => Except.error (McpError.InternalError "boom")

/-- List handler that always fails with an internal error. -/
def failingListHandler : ResourceListHandler :=
  fun _ _ => Except.error (McpError.InternalError "boom")

/-- Empty resource metadata. -/
def resMeta0 : ResourceMeta := ⟨"", none, none⟩

/-- Three providers, exactly one of which recognizes "res://b". -/
def threeProviderBuilder : Builder :=
  ((Builder.new.resource "res://a" resMeta0 emptyListHandler emptyReadHandler).resource
      "res://b" resMeta0 emptyListHandler readHandlerB).resource
    "res://c" resMeta0 emptyListHandler emptyReadHandler

/-- Two providers, the second of which fails on both list and read. -/
def failingProviderBuilder : Builder :=
  (Builder.new.resource "res://a" resMeta0 emptyListHandler emptyReadHandler).resource
    "res://fail" resMeta0 failingListHandler failingReadHandler

/-! ### Helper lemmas -/

theorem lookupReg_insertReg_self (key : String) (v : α) (reg : List (String × α)) :
    lookupReg key (insertReg key v reg) = some v := by
  induction reg with
  | nil => simp [insertReg, lookupReg]
  | cons p rest ih =>
      obtain ⟨k, w⟩ := p
      by_cases hk : k = key
      · simp [insertReg, hk, lookupReg]
      · simp [insertReg, hk, lookupReg, ih]

theorem mem_regKeys_insertReg (n key : String) (v : α) (reg : List (String × α)) :
    n ∈ regKeys (insertReg key v reg) ↔ n = key ∨ n ∈ regKeys reg := by
  induction reg with
  | nil => simp [insertReg, regKeys]
  | cons p rest ih =>
      obtain ⟨k, w⟩ := p
      by_cases hk : k = key
      · subst hk
        simp [insertReg, regKeys]
      · simp only [insertReg, if_neg hk]
        simp only [regKeys, List.map_cons] at ih ⊢
        rw [List.mem_cons, List.mem_cons, ih]
        tauto

theorem nodup_regKeys_insertReg (key : String) (v : α) (reg : List (String × α))
    (h : (regKeys reg).Nodup) : (regKeys (insertReg key v reg)).Nodup := by
  induction reg with
  | nil => simp [insertReg, regKeys]
  | cons p rest ih =>
      obtain ⟨k, w⟩ := p
      simp only [regKeys, List.map_cons, List.nodup_cons] at h
      by_cases hk : k = key
      · subst hk
        simpa [insertReg, regKeys] using h
      · simp only [insertReg, if_neg hk, regKeys, List.map_cons, List.nodup_cons]
        refine ⟨?_, ih h.2⟩
        intro hmem
        rcases (mem_regKeys_insertReg k key v rest).mp hmem with h1 | h1
        · exact hk h1
        · exact h.1 h1

theorem forall_mem_insertReg (P : String × α → Prop) (key : String) (v : α)
    (reg : List (String × α)) (hreg : ∀ p ∈ reg, P p) (hv : P (key, v)) :
    ∀ p ∈ insertReg key v reg, P p := by
  induction reg with
  | nil => simpa [insertReg]
  | cons q rest ih =>
      obtain ⟨k, w⟩ := q
      by_cases hk : k = key
      · simp only [insertReg, if_pos hk]
        intro p hp
        rcases List.mem_cons.mp hp with h1 | h1
        · exact h1 ▸ hv
        · exact hreg p (List.mem_cons_of_mem _ h1)
      · simp only [insertReg, if_neg hk]
        intro p hp
        rcases List.mem_cons.mp hp with h1 | h1
        · exact hreg p (h1 ▸ List.mem_cons_self _ _)
        · exact ih (fun q hq => hreg q (List.mem_cons_of_mem _ hq)) p h1

theorem handleInitializeReq_ok_id (req : JsonRpcRequest) (si : Implementation)
    (c : ServerCapabilities) (r : JsonRpcResponse)
    (h : handleInitializeReq req si c = Except.ok r) : r.id = req.id := by
  unfold handleInitializeReq at h
  repeat' split at h
  all_goals first
    | exact Except.noConfusion h
    | (injection h with h2; subst h2; rfl)

theorem handlePing_ok_id (req : JsonRpcRequest) (r : JsonRpcResponse)
    (h : handlePing req = Except.ok r) : r.id = req.id := by
  unfold handlePing at h
  injection h with h2
  subst h2
  rfl

theorem handleNotificationsInitialized_ok_id (req : JsonRpcRequest)
    (r : JsonRpcResponse) (h : handleNotificationsInitialized req = Except.ok r) :
    r.id = req.id := by
  unfold handleNotificationsInitialized at h
  injection h with h2
  subst h2
  rfl

theorem handleLoggingSetLevel_ok_id (req : JsonRpcRequest) (r : JsonRpcResponse)
    (h : handleLoggingSetLevel req = Except.ok r) : r.id = req.id := by
  unfold handleLoggingSetLevel at h
  repeat' split at h
  all_goals first
    | exact Except.noConfusion h
    | (injection h with h2; subst h2; rfl)

theorem handleResourcesList_ok_id (req : JsonRpcRequest) (ctx : RequestContext)
    (server : Server) (r : JsonRpcResponse)
    (h : handleResourcesList req ctx server = Except.ok r) : r.id = req.id := by
  unfold handleResourcesList at h
  repeat' split at h
  all_goals first
    | exact Except.noConfusion h
    | (injection h with h2; subst h2; rfl)

theorem handleResourcesRead_ok_id (req : JsonRpcRequest) (ctx : RequestContext)
    (server : Server) (r : JsonRpcResponse)
    (h : handleResourcesRead req ctx server = Except.ok r) : r.id = req.id := by
  unfold handleResourcesRead at h
  repeat' split at h
  all_goals first
    | exact Except.noConfusion h
    | (injection h with h2; subst h2; rfl)

theorem handleResourcesTemplates_ok_id (req : JsonRpcRequest) (r : JsonRpcResponse)
    (h : handleResourcesTemplates req = Except.ok r) : r.id = req.id := by
  unfold handleResourcesTemplates at h
  injection h with h2
  subst h2
  rfl

theorem handleResourcesSubscribe_ok_id (req : JsonRpcRequest) (r : JsonRpcResponse)
    (h : handleResourcesSubscribe req = Except.ok r) : r.id = req.id := by
  unfold handleResourcesSubscribe at h
  injection h with h2
  subst h2
  rfl

theorem handleToolsList_ok_id (req : JsonRpcRequest) (server : Server)
    (r : JsonRpcResponse) (h : handleToolsList req server = Except.ok r) :
    r.id = req.id := by
  unfold handleToolsList at h
  injection h with h2
  subst h2
  rfl

theorem handleToolsCall_ok_id (req : JsonRpcRequest) (ctx : RequestContext)
    (server : Server) (r : JsonRpcResponse)
    (h : handleToolsCall req ctx server = Except.ok r) : r.id = req.id := by
  unfold handleToolsCall at h
  repeat' split at h
  all_goals first
    | exact Except.noConfusion h
    | (injection h with h2; subst h2; rfl)

theorem handlePromptsList_ok_id (req : JsonRpcRequest) (server : Server)
    (r : JsonRpcResponse) (h : handlePromptsList req server = Except.ok r) :
    r.id = req.id := by
  unfold handlePromptsList at h
  injection h with h2
  subst h2
  rfl

theorem handlePromptsGet_ok_id (req : JsonRpcRequest) (ctx : RequestContext)
    (server : Server) (r : JsonRpcResponse)
    (h : handlePromptsGet req ctx server = Except.ok r) : r.id = req.id := by
  unfold handlePromptsGet at h
  repeat' split at h
  all_goals first
    | exact Except.noConfusion h
    | (injection h with h2; subst h2; rfl)

theorem routeRequest_ok_id (req : JsonRpcRequest) (ctx : RequestContext)
    (server : Server) (r : JsonRpcResponse)
    (h : routeRequest req ctx server = Except.ok r) : r.id = req.id := by
  unfold routeRequest at h
  split at h
  · exact handleInitializeReq_ok_id _ _ _ _ h
  · exact handlePing_ok_id _ _ h
  · exact handleNotificationsInitialized_ok_id _ _ h
  · exact handleResourcesList_ok_id _ _ _ _ h
  · exact handleResourcesRead_ok_id _ _ _ _ h
  · exact handleResourcesTemplates_ok_id _ _ h
  · exact handleResourcesSubscribe_ok_id _ _ h
  · exact handleToolsList_ok_id _ _ _ h
  · exact handleToolsCall_ok_id _ _ _ _ h
  · exact handlePromptsList_ok_id _ _ _ h
  · exact handlePromptsGet_ok_id _ _ _ _ h
  · exact handleLoggingSetLevel_ok_id _ _ h
  · exact Except.noConfusion h

theorem jGet_errorResponse_id (e : McpError) :
    jGet e.errorResponse "id" = some Json.null := rfl

theorem readFanout_of_forall2 (u : String) (ctx : RequestContext)
    (providers : List (String × RegisteredResource))
    (outs : List (List ResourceContents))
    (h : List.Forall₂ (fun p out => (Prod.snd p).readHandler u ctx = Except.ok out)
      providers outs) :
    readFanout providers u ctx = Except.ok outs.flatten := by
  induction h with
  | nil => rfl
  | @cons p out ps os h1 _h2 ih =>
      obtain ⟨k, r⟩ := p
      simp only at h1
      simp [readFanout, h1, ih]

theorem readFanout_error_after_ok (u : String) (ctx : RequestContext)
    (pre post : List (String × RegisteredResource)) (k : String)
    (p : RegisteredResource) (e : McpError)
    (hpre : ∀ q ∈ pre, ∃ out, (Prod.snd q).readHandler u ctx = Except.ok out)
    (hp : p.readHandler u ctx = Except.error e) :
    readFanout (pre ++ (k, p) :: post) u ctx = Except.error e := by
  induction pre with
  | nil => simp [readFanout, hp]
  | cons q rest ih =>
      obtain ⟨k2, r⟩ := q
      obtain ⟨out, hout⟩ := hpre (k2, r) (List.mem_cons_self _ _)
      have ih2 := ih (fun q hq => hpre q (List.mem_cons_of_mem _ hq))
      simp only at hout
      simp [readFanout, hout, ih2]

theorem listFanout_error_after_ok (c : Option String) (ctx : RequestContext)
    (pre post : List (String × RegisteredResource)) (k : String)
    (p : RegisteredResource) (e : McpError)
    (hpre : ∀ q ∈ pre, ∃ out, (Prod.snd q).listHandler c ctx = Except.ok out)
    (hp : p.listHandler c ctx = Except.error e) :
    listFanout (pre ++ (k, p) :: post) c ctx = Except.error e := by
  induction pre with
  | nil => simp [listFanout, hp]
  | cons q rest ih =>
      obtain ⟨k2, r⟩ := q
      obtain ⟨out, hout⟩ := hpre (k2, r) (List.mem_cons_self _ _)
      have ih2 := ih (fun q hq => hpre q (List.mem_cons_of_mem _ hq))
      simp only at hout
      simp [listFanout, hout, ih2]

theorem join_eq_nil_of_forall_nil {α : Type} (L : List (List α))
    (h : ∀ l ∈ L, l = []) : L.flatten = [] := by
  induction L with
  | nil => rfl
  | cons l rest ih =>
      have h1 := h l (List.mem_cons_self _ _)
      have h2 := ih (fun q hq => h q (List.mem_cons_of_mem _ hq))
      simp [h1, h2]

theorem registerTools_tools_mem (rs : List (String × ToolMeta × ToolHandler))
    (b : Builder) (n : String) :
    n ∈ regKeys (registerTools b rs).tools ↔
      n ∈ regKeys b.tools ∨ n ∈ rs.map (fun r => r.1) := by
  induction rs generalizing b with
  | nil => simp [registerTools]
  | cons r rest ih =>
      obtain ⟨nm, m, hd⟩ := r
      simp only [registerTools]
      rw [ih]
      simp only [Builder.tool]
      rw [mem_regKeys_insertReg]
      simp only [List.map_cons, List.mem_cons]
      tauto

theorem registerTools_tools_nodup (rs : List (String × ToolMeta × ToolHandler))
    (b : Builder) (h : (regKeys b.tools).Nodup) :
    (regKeys (registerTools b rs).tools).Nodup := by
  induction rs generalizing b with
  | nil => exact h
  | cons r rest ih =>
      obtain ⟨nm, m, hd⟩ := r
      simp only [registerTools]
      exact ih _ (nodup_regKeys_insertReg _ _ _ h)

theorem registerTools_meta_name (rs : List (String × ToolMeta × ToolHandler))
    (b : Builder) (h : ∀ p ∈ b.tools, (Prod.snd p).meta.name = p.1) :
    ∀ p ∈ (registerTools b rs).tools, (Prod.snd p).meta.name = p.1 := by
  induction rs generalizing b with
  | nil => exact h
  | cons r rest ih =>
      obtain ⟨nm, m, hd⟩ := r
      simp only [registerTools]
      refine ih _ ?_
      exact forall_mem_insertReg _ _ _ _ h rfl

theorem registerTools_append_single (rs : List (String × ToolMeta × ToolHandler))
    (b : Builder) (n : String) (m : ToolMeta) (hd : ToolHandler) :
    registerTools b (rs ++ [(n, m, hd)]) = (registerTools b rs).tool n m hd := by
  induction rs generalizing b with
  | nil => rfl
  | cons r rest ih =>
      obtain ⟨nm, mm, hh⟩ := r
      simp only [List.cons_append, registerTools]
      exact ih _

/-! ### Claim theorems -/

/-- C1 (code_bug evidence): the claim says a message with no id never
produces a response body, success or failure. The code violates this on
the failure path: for every server, a notification naming an unknown
method makes `handle_post` propagate the `McpError` with `?` before the
notification check is reached, so `error_response` serializes a JSON-RPC
error body (code -32601, id null, HTTP 404) — not the empty
acknowledgment. The result is independent of the server and channel state,
so no handler ran. -/
theorem C1_failing_notification_gets_error_body (server : Server)
    (ctx : RequestContext) (acceptSse : Bool) (cnt : Nat) :
    handlePost server ctx acceptSse cnt ⟨"2.0", "no/such-method", none, none⟩
      = (HttpOut.errorBody (McpError.MethodNotFound "no/such-method").errorResponse 404, [])
    ∧ jGet (McpError.MethodNotFound "no/such-method").errorResponse "error" ≠ none := by
  exact ⟨rfl, fun h => Option.noConfusion h⟩

/-- C1 (positive half, for contrast): a notification whose processing
succeeds gets the empty no-content acknowledgment and nothing is
published. -/
theorem C1_successful_notification_no_body (server : Server)
    (ctx : RequestContext) (acceptSse : Bool) (cnt : Nat) :
    handlePost server ctx acceptSse cnt ⟨"2.0", "ping", none, none⟩
      = (HttpOut.noContent, []) := rfl

/-- C7 (code_bug evidence): the claim says jsonrpc ≠ "2.0" or an empty
method is rejected with InvalidRequest before any handler runs. The
"before any handler" half holds (the result below is independent of the
server), but the wire error is wrong: `body.validate()?` converts the
validator's InvalidRequest-coded `JsonRpcError` through
`From<JsonRpcError> for McpError`, which keeps only the message, and
`to_jsonrpc_error` maps that catch-all variant to the internal-error code
-32603 (HTTP 500) instead of -32600. -/
theorem C7_validation_rejects_before_routing_with_wrong_code (server : Server)
    (ctx : RequestContext) (acceptSse : Bool) (cnt : Nat) :
    handlePost server ctx acceptSse cnt ⟨"1.0", "ping", none, some (RequestId.number 1)⟩
      = (HttpOut.errorBody
          (McpError.JsonRpcErr "Invalid JSON-RPC version").errorResponse 500, [])
    ∧ handlePost server ctx acceptSse cnt ⟨"2.0", "", none, some (RequestId.number 1)⟩
      = (HttpOut.errorBody
          (McpError.JsonRpcErr "Method cannot be empty").errorResponse 500, [])
    ∧ (McpError.JsonRpcErr "Invalid JSON-RPC version").toJsonRpcError.code = -32603
    ∧ error_codes.INVALID_REQUEST = -32600 :=
  ⟨rfl, rfl, rfl, rfl⟩

/-- C3: in streaming mode (Accept: text/event-stream), once a request
(id present, structurally valid) has a computed response, a positive
subscriber count at publish time makes `handle_post` publish the response
exactly once to the broadcast channel and answer 202 Accepted with no
body; a zero subscriber count publishes nothing and falls back to writing
the full JSON response directly to the caller. -/
theorem C3_streaming_publish_once_and_fallback (server : Server)
    (ctx : RequestContext) (cnt : Nat) (req : JsonRpcRequest) (i : RequestId)
    (resp : JsonRpcResponse) (hval : req.validate = Except.ok ())
    (hid : req.id = some i)
    (hroute : routeRequest req ctx server = Except.ok resp) :
    (0 < cnt → handlePost server ctx true cnt req = (HttpOut.accepted, [resp]))
    ∧ handlePost server ctx true 0 req = (HttpOut.okJson resp, []) := by
  unfold handlePost
  simp only [hval, hroute, JsonRpcRequest.isNotification, hid]
  constructor
  · intro hcnt
    simp [hcnt]
  · simp

/-- Witness for C3 at a concrete input: the ping request with id 1 against
the empty server, with one subscriber and with none. -/
theorem C3_streaming_publish_once_and_fallback_witness :
    handlePost server0 ctx0 true 1 pingReq1 = (HttpOut.accepted, [pingResp1])
    ∧ handlePost server0 ctx0 true 0 pingReq1 = (HttpOut.okJson pingResp1, []) :=
  ⟨(C3_streaming_publish_once_and_fallback server0 ctx0 1 pingReq1
      (RequestId.number 1) pingResp1 rfl rfl rfl).1 (by decide),
   (C3_streaming_publish_once_and_fallback server0 ctx0 0 pingReq1
      (RequestId.number 1) pingResp1 rfl rfl rfl).2⟩

/-- C6: the error-taxonomy-to-JSON-RPC mapping is exactly the claimed
table: ParseError -32700, InvalidRequest -32600, MethodNotFound -32601,
InvalidParams -32602, InternalError -32603, ResourceNotFound -32002 with
data uri, ToolNotFound/PromptNotFound reusing -32601 with data
tool/prompt; and `tools/call` with an unregistered name fails with
`ToolNotFound` carrying the requested name, which maps to -32601 with
data identifying the tool. -/
theorem C6_error_code_table (msg uri nm pm : String) (server : Server)
    (ctx : RequestContext) (req : JsonRpcRequest) (n : String)
    (hp : req.params = some (Json.obj [("name", Json.str n)]))
    (hlook : lookupReg n server.tools = none) :
    (McpError.ParseError msg).toJsonRpcError = ⟨-32700, msg, none⟩
    ∧ (McpError.InvalidRequest msg).toJsonRpcError = ⟨-32600, msg, none⟩
    ∧ (McpError.MethodNotFound msg).toJsonRpcError = ⟨-32601, msg, none⟩
    ∧ (McpError.InvalidParams msg).toJsonRpcError = ⟨-32602, msg, none⟩
    ∧ (McpError.InternalError msg).toJsonRpcError = ⟨-32603, msg, none⟩
    ∧ (McpError.ResourceNotFound uri).toJsonRpcError
        = ⟨-32002, "Resource not found: " ++ uri,
            some (Json.obj [("uri", Json.str uri)])⟩
    ∧ (McpError.ToolNotFound nm).toJsonRpcError
        = ⟨-32601, "Tool not found: " ++ nm,
            some (Json.obj [("tool", Json.str nm)])⟩
    ∧ (McpError.PromptNotFound pm).toJsonRpcError
        = ⟨-32601, "Prompt not found: " ++ pm,
            some (Json.obj [("prompt", Json.str pm)])⟩
    ∧ handleToolsCall req ctx server = Except.error (McpError.ToolNotFound n) := by
  refine ⟨rfl, rfl, rfl, rfl, rfl, rfl, rfl, rfl, ?_⟩
  unfold handleToolsCall
  simp [hp, parseToolsCallParams, jLookup, hlook]

/-- Witness for C6 at a concrete input: calling the unregistered tool
"ghost" on the empty server. -/
theorem C6_error_code_table_witness :
    handleToolsCall ⟨"2.0", "tools/call",
        some (Json.obj [("name", Json.str "ghost")]), some (RequestId.number 7)⟩
      ctx0 server0 = Except.error (McpError.ToolNotFound "ghost") :=
  (C6_error_code_table "m" "u" "t" "p" server0 ctx0
      ⟨"2.0", "tools/call", some (Json.obj [("name", Json.str "ghost")]),
        some (RequestId.number 7)⟩ "ghost" rfl rfl).2.2.2.2.2.2.2.2

/-- C2 counterexample: a request carrying id 1 whose method is unknown is
answered through the transport error path, whose body hardcodes id null —
the request identifier is not echoed on the error object, refuting the
claim as stated. -/
theorem C2_error_id_not_echoed_counterexample :
    handlePost server0 ctx0 false 0
        ⟨"2.0", "no/such-method", none, some (RequestId.number 1)⟩
      = (HttpOut.errorBody
          (McpError.MethodNotFound "no/such-method").errorResponse 404, [])
    ∧ jGet (McpError.MethodNotFound "no/such-method").errorResponse "id"
        = some Json.null
    ∧ some Json.null ≠ some (Json.num 1) :=
  ⟨rfl, rfl, fun h => Json.noConfusion (Option.some.inj h)⟩

/-- C2 amended: for every structurally processed message carrying an
identifier, a direct success response and every published streaming
response echo that identifier; but any error is serialized by
`error_response` with identifier null regardless of the request id; and
the message is never treated as a notification. -/
theorem C2_success_echoes_id_errors_carry_null (server : Server)
    (ctx : RequestContext) (acceptSse : Bool) (cnt : Nat)
    (req : JsonRpcRequest) (i : RequestId) (hid : req.id = some i) :
    (∀ r, (handlePost server ctx acceptSse cnt req).1 = HttpOut.okJson r →
      r.id = some i)
    ∧ (∀ r, r ∈ (handlePost server ctx acceptSse cnt req).2 → r.id = some i)
    ∧ (∀ b s, (handlePost server ctx acceptSse cnt req).1 = HttpOut.errorBody b s →
        jGet b "id" = some Json.null)
    ∧ (handlePost server ctx acceptSse cnt req).1 ≠ HttpOut.noContent := by
  unfold handlePost
  cases hv : req.validate with
  | error e =>
      simp only [hv]
      refine ⟨?_, ?_, ?_, ?_⟩
      · intro r h
        exact HttpOut.noConfusion h
      · intro r h
        simp at h
      · intro b s h
        injection h with h1 h2
        subst h1
        exact jGet_errorResponse_id _
      · intro h
        exact HttpOut.noConfusion h
  | ok u =>
      cases hr : routeRequest req ctx server with
      | error e =>
          simp only [hv, hr]
          refine ⟨?_, ?_, ?_, ?_⟩
          · intro r h
            exact HttpOut.noConfusion h
          · intro r h
            simp at h
          · intro b s h
            injection h with h1 h2
            subst h1
            exact jGet_errorResponse_id _
          · intro h
            exact HttpOut.noConfusion h
      | ok resp =>
          have hrid : resp.id = some i := by
            rw [routeRequest_ok_id req ctx server resp hr, hid]
          have hnotif : req.isNotification = false := by
            simp [JsonRpcRequest.isNotification, hid]
          simp only [hv, hr, hnotif]
          by_cases hsse : acceptSse = true
          · by_cases hcnt : 0 < cnt
            · simp only [hsse, hcnt, Bool.false_eq_true, if_false, if_true]
              refine ⟨?_, ?_, ?_, ?_⟩
              · intro r h
                exact HttpOut.noConfusion h
              · intro r h
                simp at h
                subst h
                exact hrid
              · intro b s h
                exact HttpOut.noConfusion h
              · intro h
                exact HttpOut.noConfusion h
            · simp only [hsse, hcnt, Bool.false_eq_true, if_false, if_true]
              refine ⟨?_, ?_, ?_, ?_⟩
              · intro r h
                injection h with h1
                subst h1
                exact hrid
              · intro r h
                simp at h
              · intro b s h
                exact HttpOut.noConfusion h
              · intro h
                exact HttpOut.noConfusion h
          · simp only [hsse, Bool.false_eq_true, if_false]
            refine ⟨?_, ?_, ?_, ?_⟩
            · intro r h
              injection h with h1
              subst h1
              exact hrid
            · intro r h
              simp at h
            · intro b s h
              exact HttpOut.noConfusion h
            · intro h
              exact HttpOut.noConfusion h

/-- Witness for C2 amended: the ping request with id 1 on the empty
server yields a direct response echoing id 1 and is not treated as a
notification. -/
theorem C2_success_echoes_id_errors_carry_null_witness :
    pingResp1.id = some (RequestId.number 1)
    ∧ (handlePost server0 ctx0 false 0 pingReq1).1 ≠ HttpOut.noContent :=
  ⟨(C2_success_echoes_id_errors_carry_null server0 ctx0 false 0 pingReq1
      (RequestId.number 1) rfl).1 pingResp1 rfl,
   (C2_success_echoes_id_errors_carry_null server0 ctx0 false 0 pingReq1
      (RequestId.number 1) rfl).2.2.2⟩

/-- C4: `resources/read` for URI u invokes every registered provider's
read handler with u and concatenates the results: when all providers
succeed, an empty aggregate fails with `ResourceNotFound(u)`, a non-empty
aggregate succeeds with the concatenation, and when exactly one provider
returns non-empty contents the result is exactly that provider's
contents. -/
theorem C4_resources_read_fanout (server : Server) (ctx : RequestContext)
    (req : JsonRpcRequest) (u : String)
    (outs outs1 outs2 : List (List ResourceContents))
    (cs : List ResourceContents)
    (hp : req.params = some (Json.obj [("uri", Json.str u)]))
    (hall : List.Forall₂
      (fun p out => (Prod.snd p).readHandler u ctx = Except.ok out)
      server.resources outs) :
    (outs.flatten = [] →
      handleResourcesRead req ctx server
        = Except.error (McpError.ResourceNotFound u))
    ∧ (outs.flatten ≠ [] →
      handleResourcesRead req ctx server
        = Except.ok (JsonRpcResponse.success
            (encResourcesReadResult ⟨outs.flatten⟩) req.id))
    ∧ (outs = outs1 ++ cs :: outs2 → (∀ o ∈ outs1, o = []) →
       (∀ o ∈ outs2, o = []) → cs ≠ [] →
      handleResourcesRead req ctx server
        = Except.ok (JsonRpcResponse.success
            (encResourcesReadResult ⟨cs⟩) req.id)) := by
  have hfan := readFanout_of_forall2 u ctx server.resources outs hall
  have hmain : handleResourcesRead req ctx server
      = (if outs.flatten.isEmpty then
          Except.error (McpError.ResourceNotFound u)
        else
          Except.ok (JsonRpcResponse.success
            (encResourcesReadResult ⟨outs.flatten⟩) req.id)) := by
    unfold handleResourcesRead
    simp [hp, parseResourcesReadParams, jLookup, hfan]
  refine ⟨?_, ?_, ?_⟩
  · intro h
    simp [hmain, h]
  · intro h
    simp [hmain, h]
  · intro he h1 h2 hcs
    subst he
    have hflat : (outs1 ++ cs :: outs2).flatten = cs := by
      simp [List.flatten_append, join_eq_nil_of_forall_nil outs1 h1,
            join_eq_nil_of_forall_nil outs2 h2]
    rw [hmain, hflat]
    simp [hcs]

/-- Witness for C4 at a concrete input: three providers of which exactly
one recognizes "res://b" yield exactly that provider's contents, and the
unrecognized URI "res://z" fails with ResourceNotFound. -/
theorem C4_resources_read_fanout_witness :
    handleResourcesRead
        ⟨"2.0", "resources/read",
          some (Json.obj [("uri", Json.str "res://b")]), some (RequestId.number 2)⟩
        ctx0 threeProviderBuilder.build
      = Except.ok (JsonRpcResponse.success
          (encResourcesReadResult ⟨[contentB]⟩) (some (RequestId.number 2)))
    ∧ handleResourcesRead
        ⟨"2.0", "resources/read",
          some (Json.obj [("uri", Json.str "res://z")]), some (RequestId.number 3)⟩
        ctx0 threeProviderBuilder.build
      = Except.error (McpError.ResourceNotFound "res://z") :=
  ⟨(C4_resources_read_fanout threeProviderBuilder.build ctx0
      ⟨"2.0", "resources/read",
        some (Json.obj [("uri", Json.str "res://b")]), some (RequestId.number 2)⟩
      "res://b" [[], [contentB], []] [[]] [[]] [contentB] rfl
      (List.Forall₂.cons rfl (List.Forall₂.cons rfl
        (List.Forall₂.cons rfl List.Forall₂.nil)))).2.2 rfl
      (by intro o ho; simpa using ho) (by intro o ho; simpa using ho)
      (by simp),
   (C4_resources_read_fanout threeProviderBuilder.build ctx0
      ⟨"2.0", "resources/read",
        some (Json.obj [("uri", Json.str "res://z")]), some (RequestId.number 3)⟩
      "res://z" [[], [], []] [] [] [] rfl
      (List.Forall₂.cons rfl (List.Forall₂.cons rfl
        (List.Forall₂.cons rfl List.Forall₂.nil)))).1 rfl⟩

/-- C10: in the resources/list and resources/read fan-out loops, a
provider error aborts the whole call with that provider's error (the
providers before it in iteration order having succeeded), and no partial
aggregate is returned. -/
theorem C10_provider_error_aborts_fanout (server : Server)
    (ctx : RequestContext) (req1 req2 : JsonRpcRequest) (u : String)
    (e : McpError) (pre post : List (String × RegisteredResource))
    (k : String) (p : RegisteredResource)
    (hres : server.resources = pre ++ (k, p) :: post) :
    (req1.params = some (Json.obj [("uri", Json.str u)]) →
     (∀ q ∈ pre, ∃ out, (Prod.snd q).readHandler u ctx = Except.ok out) →
     p.readHandler u ctx = Except.error e →
     handleResourcesRead req1 ctx server = Except.error e)
    ∧ (req2.params = none →
     (∀ q ∈ pre, ∃ out, (Prod.snd q).listHandler none ctx = Except.ok out) →
     p.listHandler none ctx = Except.error e →
     handleResourcesList req2 ctx server = Except.error e) := by
  constructor
  · intro hp hpre hperr
    have hfan := readFanout_error_after_ok u ctx pre post k p e hpre hperr
    unfold handleResourcesRead
    rw [hres]
    simp [hp, parseResourcesReadParams, jLookup, hfan]
  · intro hp hpre hperr
    have hfan := listFanout_error_after_ok none ctx pre post k p e hpre hperr
    unfold handleResourcesList
    rw [hres]
    simp [hp, parseResourcesListParams, hfan]

/-- Witness for C10 at a concrete input: two providers, the second of
which fails; both resources/read and resources/list abort with its
internal error. -/
theorem C10_provider_error_aborts_fanout_witness :
    handleResourcesRead
        ⟨"2.0", "resources/read",
          some (Json.obj [("uri", Json.str "res://a")]), some (RequestId.number 4)⟩
        ctx0 failingProviderBuilder.build
      = Except.error (McpError.InternalError "boom")
    ∧ handleResourcesList
        ⟨"2.0", "resources/list", none, some (RequestId.number 5)⟩
        ctx0 failingProviderBuilder.build
      = Except.error (McpError.InternalError "boom") :=
  ⟨(C10_provider_error_aborts_fanout failingProviderBuilder.build ctx0
      ⟨"2.0", "resources/read",
        some (Json.obj [("uri", Json.str "res://a")]), some (RequestId.number 4)⟩
      ⟨"2.0", "resources/list", none, some (RequestId.number 5)⟩
      "res://a" (McpError.InternalError "boom")
      [("res://a", ⟨resMeta0.toResource "res://a", emptyListHandler, emptyReadHandler⟩)]
      [] "res://fail"
      ⟨resMeta0.toResource "res://fail", failingListHandler, failingReadHandler⟩
      rfl).1 rfl
      (by intro q hq; rw [List.mem_singleton] at hq; subst hq; exact ⟨[], rfl⟩)
      rfl,
   (C10_provider_error_aborts_fanout failingProviderBuilder.build ctx0
      ⟨"2.0", "resources/read",
        some (Json.obj [("uri", Json.str "res://a")]), some (RequestId.number 4)⟩
      ⟨"2.0", "resources/list", none, some (RequestId.number 5)⟩
      "res://a" (McpError.InternalError "boom")
      [("res://a", ⟨resMeta0.toResource "res://a", emptyListHandler, emptyReadHandler⟩)]
      [] "res://fail"
      ⟨resMeta0.toResource "res://fail", failingListHandler, failingReadHandler⟩
      rfl).2 rfl
      (by intro q hq; rw [List.mem_singleton] at hq; subst hq; exact ⟨([], none), rfl⟩)
      rfl⟩

/-- C5: `initialize` rejects a client protocolVersion outside the
"2024-"/"2025-" prefixes with InvalidRequest; inside them it succeeds
and returns the frozen capability set of the built server, whose tools
(resp. prompts, resources) field is present iff the corresponding
registry was non-empty at build time, with logging always present; and
`route_request` dispatches the method "initialize" to this handler. -/
theorem C5_initialize_version_gate_and_capabilities (b : Builder)
    (ctx : RequestContext) (req : JsonRpcRequest) (v cn cv : String)
    (caps : List (String × Json))
    (hp : req.params = some (Json.obj
      [("protocolVersion", Json.str v), ("capabilities", Json.obj caps),
       ("clientInfo", Json.obj [("name", Json.str cn), ("version", Json.str cv)])])) :
    (¬ (strStartsWith v "2024-" = true ∨ strStartsWith v "2025-" = true) →
      handleInitializeReq req b.build.serverInfo b.build.capabilities
        = Except.error (McpError.InvalidRequest
            ("Unsupported protocol version: " ++ v)))
    ∧ ((strStartsWith v "2024-" = true ∨ strStartsWith v "2025-" = true) →
      handleInitializeReq req b.build.serverInfo b.build.capabilities
        = Except.ok (JsonRpcResponse.success
            (encInitializeResult ⟨v, b.build.capabilities, b.build.serverInfo⟩)
            req.id))
    ∧ (b.build.capabilities.tools.isSome ↔ b.tools ≠ [])
    ∧ (b.build.capabilities.prompts.isSome ↔ b.prompts ≠ [])
    ∧ (b.build.capabilities.resources.isSome ↔ b.resources ≠ [])
    ∧ b.build.capabilities.logging.isSome
    ∧ (req.method = "initialize" →
      routeRequest req ctx b.build
        = handleInitializeReq req b.build.serverInfo b.build.capabilities) := by
  have hparse : parseInitializeParams (req.params.getD Json.null)
      = Except.ok ⟨v, ⟨cn, cv⟩⟩ := by
    simp [hp, parseInitializeParams, jLookup]
  refine ⟨?_, ?_, ?_, ?_, ?_, ?_, ?_⟩
  · intro hbad
    unfold handleInitializeReq
    rw [hparse]
    have h1 : strStartsWith v "2024-" = false := by
      cases h : strStartsWith v "2024-"
      · rfl
      · exact absurd (Or.inl h) hbad
    have h2 : strStartsWith v "2025-" = false := by
      cases h : strStartsWith v "2025-"
      · rfl
      · exact absurd (Or.inr h) hbad
    simp [h1, h2]
  · intro hgood
    unfold handleInitializeReq
    rw [hparse]
    rcases hgood with h | h <;> simp [h]
  · unfold Builder.build
    cases htools : b.tools <;> simp [htools, List.isEmpty]
  · unfold Builder.build
    cases hprompts : b.prompts <;> simp [hprompts, List.isEmpty]
  · unfold Builder.build
    cases hres : b.resources <;> simp [hres, List.isEmpty]
  · unfold Builder.build
    simp
  · intro hm
    unfold routeRequest
    rw [hm]
    rfl

/-- Witness for C5 at concrete inputs: version "2023-01-01" is rejected
and "2024-11-05" succeeds against a builder with one registered tool,
whose capability set advertises tools. -/
theorem C5_initialize_version_gate_and_capabilities_witness :
    handleInitializeReq
        ⟨"2.0", "initialize",
          some (Json.obj
            [("protocolVersion", Json.str "2023-01-01"),
             ("capabilities", Json.obj []),
             ("clientInfo", Json.obj
               [("name", Json.str "client"), ("version", Json.str "1.0")])]),
          some (RequestId.number 1)⟩
        toolBuilder.build.serverInfo toolBuilder.build.capabilities
      = Except.error (McpError.InvalidRequest
          ("Unsupported protocol version: " ++ "2023-01-01"))
    ∧ handleInitializeReq
        ⟨"2.0", "initialize",
          some (Json.obj
            [("protocolVersion", Json.str "2024-11-05"),
             ("capabilities", Json.obj []),
             ("clientInfo", Json.obj
               [("name", Json.str "client"), ("version", Json.str "1.0")])]),
          some (RequestId.number 1)⟩
        toolBuilder.build.serverInfo toolBuilder.build.capabilities
      = Except.ok (JsonRpcResponse.success
          (encInitializeResult
            ⟨"2024-11-05", toolBuilder.build.capabilities,
              toolBuilder.build.serverInfo⟩)
          (some (RequestId.number 1)))
    ∧ toolBuilder.build.capabilities.tools.isSome :=
  ⟨(C5_initialize_version_gate_and_capabilities toolBuilder ctx0
      ⟨"2.0", "initialize",
        some (Json.obj
          [("protocolVersion", Json.str "2023-01-01"),
           ("capabilities", Json.obj []),
           ("clientInfo", Json.obj
             [("name", Json.str "client"), ("version", Json.str "1.0")])]),
        some (RequestId.number 1)⟩
      "2023-01-01" "client" "1.0" [] rfl).1 (by decide),
   (C5_initialize_version_gate_and_capabilities toolBuilder ctx0
      ⟨"2.0", "initialize",
        some (Json.obj
          [("protocolVersion", Json.str "2024-11-05"),
           ("capabilities", Json.obj []),
           ("clientInfo", Json.obj
             [("name", Json.str "client"), ("version", Json.str "1.0")])]),
        some (RequestId.number 1)⟩
      "2024-11-05" "client" "1.0" [] rfl).2.1 (Or.inl (by decide)),
   (C5_initialize_version_gate_and_capabilities toolBuilder ctx0
      ⟨"2.0", "initialize",
        some (Json.obj
          [("protocolVersion", Json.str "2024-11-05"),
           ("capabilities", Json.obj []),
           ("clientInfo", Json.obj
             [("name", Json.str "client"), ("version", Json.str "1.0")])]),
        some (RequestId.number 1)⟩
      "2024-11-05" "client" "1.0" [] rfl).2.2.1.mpr (by simp [toolBuilder, Builder.tool, Builder.new, insertReg])⟩

/-- C8: `tools/call` on a registered tool invokes its handler with the
supplied argument map — or the empty map when the arguments field is
absent — and on handler success the result is exactly one text-typed
content item whose text is the stringification of the handler's returned
JSON value, with the error flag unset (`is_error: None`), echoing the
request id. -/
theorem C8_tools_call_invokes_handler_and_wraps_text (server : Server)
    (ctx : RequestContext) (req : JsonRpcRequest) (n : String)
    (args : List (String × Json)) (t : RegisteredTool) (v : Json)
    (hlook : lookupReg n server.tools = some t) :
    (req.params = some (Json.obj
        [("name", Json.str n), ("arguments", Json.obj args)]) →
      t.handler args ctx = Except.ok v →
      handleToolsCall req ctx server
        = Except.ok (JsonRpcResponse.success
            (encToolsCallResult ⟨[ToolContent.text v.render], none⟩) req.id))
    ∧ (req.params = some (Json.obj [("name", Json.str n)]) →
      t.handler [] ctx = Except.ok v →
      handleToolsCall req ctx server
        = Except.ok (JsonRpcResponse.success
            (encToolsCallResult ⟨[ToolContent.text v.render], none⟩) req.id)) := by
  constructor <;> intro hp hh <;> unfold handleToolsCall <;>
    simp [hp, parseToolsCallParams, jLookup, hlook, hh]

/-- Witness for C8 at a concrete input: calling the registered "add" tool
with an empty arguments object and with the arguments field absent. -/
theorem C8_tools_call_invokes_handler_and_wraps_text_witness :
    handleToolsCall
        ⟨"2.0", "tools/call",
          some (Json.obj [("name", Json.str "add"),
                          ("arguments", Json.obj [])]),
          some (RequestId.number 1)⟩
        ctx0 toolBuilder.build
      = Except.ok (JsonRpcResponse.success
          (encToolsCallResult
            ⟨[ToolContent.text (Json.obj [("result", Json.num 5)]).render], none⟩)
          (some (RequestId.number 1)))
    ∧ handleToolsCall
        ⟨"2.0", "tools/call",
          some (Json.obj [("name", Json.str "add")]),
          some (RequestId.number 1)⟩
        ctx0 toolBuilder.build
      = Except.ok (JsonRpcResponse.success
          (encToolsCallResult
            ⟨[ToolContent.text (Json.obj [("result", Json.num 5)]).render], none⟩)
          (some (RequestId.number 1))) :=
  ⟨(C8_tools_call_invokes_handler_and_wraps_text toolBuilder.build ctx0
      ⟨"2.0", "tools/call",
        some (Json.obj [("name", Json.str "add"), ("arguments", Json.obj [])]),
        some (RequestId.number 1)⟩
      "add" [] ⟨toolMeta0.toTool "add", addHandler⟩
      (Json.obj [("result", Json.num 5)]) rfl).1 rfl rfl,
   (C8_tools_call_invokes_handler_and_wraps_text toolBuilder.build ctx0
      ⟨"2.0", "tools/call",
        some (Json.obj [("name", Json.str "add")]),
        some (RequestId.number 1)⟩
      "add" [] ⟨toolMeta0.toTool "add", addHandler⟩
      (Json.obj [("result", Json.num 5)]) rfl).2 rfl rfl⟩

theorem map_metaName_eq_regKeys (ts : List (String × RegisteredTool))
    (h : ∀ p ∈ ts, (Prod.snd p).meta.name = p.1) :
    ts.map (fun p => (Prod.snd p).meta.name) = regKeys ts := by
  induction ts with
  | nil => rfl
  | cons p rest ih =>
      have h1 := h p (List.mem_cons_self _ _)
      have h2 := ih (fun q hq => h q (List.mem_cons_of_mem _ hq))
      simp only [List.map_cons, regKeys] at h2 ⊢
      rw [h1, h2]

/-- C9: after any sequence of tool registrations, `tools/list` returns the
metadata of the registered tools, whose name list has no duplicates and
equals, as a set, the set of registered names independently of
registration order; registering an existing identifier overwrites the
prior entry, so the last registration for each name wins. -/
theorem C9_tools_list_set_semantics_and_upsert
    (regs : List (String × ToolMeta × ToolHandler)) (req : JsonRpcRequest)
    (n : String) (v : RegisteredTool) (reg : List (String × RegisteredTool))
    (m : ToolMeta) (hd : ToolHandler) :
    handleToolsList req (registerTools Builder.new regs).build
      = Except.ok (JsonRpcResponse.success
          (encToolsListResult
            ⟨(registerTools Builder.new regs).build.tools.map
                (fun p => (Prod.snd p).meta), none⟩)
          req.id)
    ∧ ((registerTools Builder.new regs).build.tools.map
        (fun p => (Prod.snd p).meta.name)).Nodup
    ∧ (n ∈ (registerTools Builder.new regs).build.tools.map
          (fun p => (Prod.snd p).meta.name)
        ↔ n ∈ regs.map (fun r => r.1))
    ∧ lookupReg n (insertReg n v reg) = some v
    ∧ lookupReg n (registerTools Builder.new (regs ++ [(n, m, hd)])).tools
        = some ⟨m.toTool n, hd⟩ := by
  have hbase : ∀ p ∈ Builder.new.tools, (Prod.snd p).meta.name = p.1 := by
    intro p hp
    simp [Builder.new] at hp
  have hinv := registerTools_meta_name regs Builder.new hbase
  have hbuild : (registerTools Builder.new regs).build.tools
      = (registerTools Builder.new regs).tools := rfl
  have hnames : (registerTools Builder.new regs).build.tools.map
      (fun p => (Prod.snd p).meta.name)
      = regKeys (registerTools Builder.new regs).tools := by
    rw [hbuild]
    exact map_metaName_eq_regKeys _ hinv
  refine ⟨rfl, ?_, ?_, ?_, ?_⟩
  · rw [hnames]
    refine registerTools_tools_nodup regs Builder.new ?_
    simp [Builder.new, regKeys]
  · rw [hnames]
    rw [registerTools_tools_mem]
    simp [Builder.new, regKeys]
  · exact lookupReg_insertReg_self n v reg
  · rw [registerTools_append_single]
    simp [Builder.tool, lookupReg_insertReg_self]
